import Mathlib

/-!
# Verification of the online-judge submission execution pipeline

Shallow embedding of the core of the `Backend-Final` repository:
the language executors (`base_executor.py`, `python_executor.py`,
`cpp_executor.py`), the Docker sandbox runner (`docker_runner.py`),
the worker loop (`code_execution_worker.py`), the submit use case
(`submit_solution_use_case.py`) and the Redis queue service
(`redis_queue_service.py`).

Python strings are modelled as `List Char`; Python string methods
(`strip`, `replace`, `rstrip`, `startswith`, `in`, `lower`,
`split`/`join`) are modelled by explicit recursive functions below.
Statuses, which in the source are drawn from the fixed string sets of
`SubmissionStatus`, are modelled as inductive types.  Python `int()`
truncation of the non-negative float `(passed/len)*100` is modelled as
exact natural floor division.
-/

namespace Judge

/-- Terminal per-case / per-submission statuses used by the executors
(the fixed string set of `base_executor.py`). -/
inductive CaseStatus where
  | ACCEPTED
  | WRONG_ANSWER
  | TIME_LIMIT_EXCEEDED
  | RUNTIME_ERROR
  | COMPILATION_ERROR
deriving DecidableEq, Repr

/-- Full submission status domain (`domain/entities/submission.py`,
`SubmissionStatus`). -/
inductive SubmissionStatus where
  | QUEUED
  | RUNNING
  | ACCEPTED
  | WRONG_ANSWER
  | TIME_LIMIT_EXCEEDED
  | RUNTIME_ERROR
  | COMPILATION_ERROR
deriving DecidableEq, Repr

/-- User roles (`domain/entities/user.py`, `UserRole`). -/
inductive UserRole where
  | STUDENT
  | PROFESSOR
  | ADMIN
deriving DecidableEq, Repr

/-- Challenge lifecycle (`domain/entities/challenge.py`, `ChallengeStatus`). -/
inductive ChallengeStatus where
  | DRAFT
  | PUBLISHED
  | ARCHIVED
deriving DecidableEq, Repr

/-! ## Python string primitives over `List Char` -/

/-- The whitespace characters stripped by Python `str.strip()`
(ASCII subset: space, tab, newline, carriage return, vertical tab,
form feed). -/
def pyIsSpace (c : Char) : Bool :=
  c == ' ' || c == '\t' || c == '\n' || c == '\r' ||
  c == Char.ofNat 11 || c == Char.ofNat 12

/-- Python `str.lstrip()` (whitespace form). -/
def lstripWS (l : List Char) : List Char := l.dropWhile pyIsSpace

/-- Python `str.rstrip()` (whitespace form). -/
def rstripWS (l : List Char) : List Char :=
  (l.reverse.dropWhile pyIsSpace).reverse

/-- Python `str.strip()`. -/
def pystrip (l : List Char) : List Char := rstripWS (lstripWS l)

/-- Python `str.rstrip('\n')`. -/
def rstripNl (l : List Char) : List Char :=
  (l.reverse.dropWhile (fun c => c == '\n')).reverse

/-- Python `str.replace('\r\n', '\n')`: left-to-right, non-overlapping. -/
def replaceCRLF : List Char → List Char
  | [] => []
  | [c] => [c]
  | c1 :: c2 :: rest =>
    if c1 = '\r' ∧ c2 = '\n' then '\n' :: replaceCRLF rest
    else c1 :: replaceCRLF (c2 :: rest)

/-- The character map of Python `str.replace('\r', '\n')`. -/
def replCRChar (c : Char) : Char := if c = '\r' then '\n' else c

/-- Python `str.replace('\r', '\n')` (single-character pattern, hence a map). -/
def replaceCR (l : List Char) : List Char := l.map replCRChar

/-- Python `str.startswith(p)`. -/
def pyStartsWith : List Char → List Char → Bool
  | [], _ => true
  | _ :: _, [] => false
  | p :: ps, c :: cs => p == c && pyStartsWith ps cs

/-- Python `p in s` (substring containment). -/
def pyIn (p : List Char) : List Char → Bool
  | [] => p.isEmpty
  | c :: cs => pyStartsWith p (c :: cs) || pyIn p cs

/-- Python `str.lower()` (ASCII). -/
def pyLower (l : List Char) : List Char := l.map Char.toLower

/-! ## Binary64 arithmetic for the score computation

`BaseExecutor._calculate_score` evaluates `int((passed / len(results)) * 100)`
in Python, i.e. in IEEE-754 double precision: the division is rounded to the
nearest binary64 value (ties to even), the multiplication by 100 is rounded
again, and `int()` truncates toward zero.  The double rounding is observable:
`int((29/50)*100) == 57` in CPython while the exact floor is 58.  The model
below reproduces that arithmetic exactly with integer computations; it was
checked against CPython on every `(passed, total)` with `total ≤ 40`, four
hundred random pairs with `total ≤ 5000`, and the known double-rounding
cases such as 29/50, 29/100, 7/10 and 87/150. -/

/-- Round `num/den` (with `den > 0`) to the nearest integer, ties to even. -/
def roundHalfEven (num den : Nat) : Nat :=
  let q := num / den
  let r := num % den
  if 2 * r < den then q
  else if 2 * r > den then q + 1
  else if q % 2 = 0 then q else q + 1

/-- Floor base-2 logarithm by fuelled structural recursion (the fuel `n`
bounds the number of halvings), so that the kernel can evaluate it. -/
def log2Fuel : Nat → Nat → Nat
  | 0, _ => 0
  | fuel + 1, m => if 2 ≤ m then log2Fuel fuel (m / 2) + 1 else 0

/-- `natLog2 n` is the floor of `log2 n` for `n ≥ 1` (and 0 at 0). -/
def natLog2 (n : Nat) : Nat := log2Fuel n n

/-- For `a, b > 0`, the unique `e` with `2^e ≤ a/b < 2^(e+1)`. -/
def floorLog2Rat (a b : Nat) : Int :=
  let d : Int := (Int.ofNat (natLog2 a)) - (Int.ofNat (natLog2 b))
  if 0 ≤ d then (if b <<< d.toNat ≤ a then d else d - 1)
  else (if b ≤ a <<< (-d).toNat then d else d - 1)

/-- Round the non-negative rational `a/b` to the nearest IEEE-754 binary64
value (round-to-nearest, ties-to-even), returned as a dyadic pair `(m, f)`
with value `m * 2^f`.  Handles the subnormal range; the overflow range does
not arise for the score pipeline, whose values stay within [0, 100]. -/
def fpRoundRat (a b : Nat) : Nat × Int :=
  if a = 0 then (0, 0)
  else
    let e := floorLog2Rat a b
    if e < -1022 then
      (roundHalfEven (a <<< 1074) b, -1074)
    else
      let s : Int := 52 - e
      if 0 ≤ s then (roundHalfEven (a <<< s.toNat) b, e - 52)
      else (roundHalfEven a (b <<< (-s).toNat), e - 52)

/-- Multiply a dyadic value by 100 (exact) and present it as a fraction,
ready for the second rounding. -/
def dyadicMul100 (mf : Nat × Int) : Nat × Nat :=
  if 0 ≤ mf.2 then ((100 * mf.1) <<< mf.2.toNat, 1)
  else (100 * mf.1, 1 <<< (-mf.2).toNat)

/-- Python `int()` truncation of a non-negative dyadic value. -/
def dyadicTruncToNat (mf : Nat × Int) : Nat :=
  if 0 ≤ mf.2 then mf.1 <<< mf.2.toNat else mf.1 >>> (-mf.2).toNat

/-- `int((passed / total) * 100)` evaluated the way CPython does: binary64
division (one rounding), binary64 multiplication by 100 (a second rounding),
truncation toward zero. -/
def py_int_div_mul100 (passed total : Nat) : Nat :=
  let r1 := fpRoundRat passed total
  let ab := dyadicMul100 r1
  dyadicTruncToNat (fpRoundRat ab.1 ab.2)

/-! ## `base_executor.py` -/

/-- `ExecutionResult` of `base_executor.py`. -/
structure ExecutionResult where
  case_id : Nat
  status : CaseStatus
  time_ms : Nat
  memory_mb : Nat
  output : List Char
  expected_output : List Char
  error_message : List Char
deriving DecidableEq, Repr

/-- `BaseExecutor._calculate_score`:
`passed = sum(1 for r in results if r.status == "ACCEPTED")` followed by
`int((passed / len(results)) * 100)`, with the double-precision arithmetic
modelled bit-exactly by `py_int_div_mul100`. -/
def calculate_score (results : List ExecutionResult) : Nat :=
  if results = [] then 0
  else py_int_div_mul100
    (results.filter fun r => r.status == CaseStatus.ACCEPTED).length
    results.length

/-- `BaseExecutor._determine_overall_status`. -/
def determine_overall_status (results : List ExecutionResult) : CaseStatus :=
  if results = [] then .RUNTIME_ERROR
  else if results.any fun r => r.status == .COMPILATION_ERROR then .COMPILATION_ERROR
  else if results.any fun r => r.status == .RUNTIME_ERROR then .RUNTIME_ERROR
  else if results.any fun r => r.status == .TIME_LIMIT_EXCEEDED then .TIME_LIMIT_EXCEEDED
  else if results.all fun r => r.status == .ACCEPTED then .ACCEPTED
  else .WRONG_ANSWER

/-! ## Output normalization -/

/-- `PythonExecutor._normalize_output`:
`if not output: return ""` then
`output.strip().replace('\r\n','\n').replace('\r','\n')` then
`.rstrip('\n')`. -/
def python_normalize (output : List Char) : List Char :=
  if output = [] then []
  else rstripNl (replaceCR (replaceCRLF (pystrip output)))

/-- `CppExecutor._normalize_output`:
`output.strip().replace('\r\n','\n').replace('\r','\n')`. -/
def cpp_normalize (output : List Char) : List Char :=
  replaceCR (replaceCRLF (pystrip output))

/-! ## Stderr debug filtering and compile-marker detection (`cpp_executor.py`) -/

/-- The debug-line markers filtered out of captured stderr in
`CppExecutor._compile_code` / `CppExecutor._execute_test_case`. -/
def debug_prefixes : List (List Char) :=
  ["Files in".data, "---Running command---".data, "total".data, "drwx".data,
   "Unable to find image".data, "latest:".data, "Pulling".data,
   "Digest:".data, "Status:".data]

/-- One line survives the stderr filter iff its stripped form is non-empty
and starts with none of the debug markers. -/
def keeps_line (line : List Char) : Bool :=
  (debug_prefixes.all fun p => !pyStartsWith p (pystrip line)) &&
  !(pystrip line).isEmpty

/-- `"\n".join(line for line in error_output.split("\n") if ...)`. -/
def filter_debug_lines (error_output : List Char) : List Char :=
  List.intercalate ['\n'] ((error_output.splitOn '\n').filter keeps_line)

/-- The compiler-error marker test used by `cpp_executor.py`:
`"g++" in e.lower() or "error:" in e.lower() or "compilation" in e.lower()`. -/
def has_compile_marker (e : List Char) : Bool :=
  pyIn "g++".data (pyLower e) || pyIn "error:".data (pyLower e) ||
  pyIn "compilation".data (pyLower e)

/-! ## Docker sandbox runner (`docker_runner.py`) -/

/-- The dictionary returned by `DockerRunner.run_code` /
`DockerRunner._run_container`. -/
structure DockerResult where
  success : Bool
  output : List Char
  error : List Char
  exit_code : Int
  execution_time_ms : Nat
  memory_used_mb : Nat
deriving DecidableEq, Repr

/-- The wall-clock budget `DockerRunner.run_code` passes to
`asyncio.wait_for`: `timeout_seconds = (time_limit_ms / 1000.0) + 1.0`,
expressed in milliseconds. -/
def docker_timeout_budget_ms (time_limit_ms : Nat) : Nat := time_limit_ms + 1000

/-- The result `DockerRunner.run_code` returns when `_run_container`
raises `asyncio.TimeoutError` (wall-clock budget breached). -/
def docker_timeout_result (time_limit_ms : Nat) : DockerResult where
  success := false
  output := []
  error := ("Execution exceeded time limit of " ++ toString time_limit_ms ++ "ms").data
  exit_code := 124
  execution_time_ms := time_limit_ms
  memory_used_mb := 0

/-! ## C++ executor (`cpp_executor.py`) -/

/-- A test case as carried on the job payload (`test_cases` dictionaries). -/
structure TestCase where
  id : Nat
  input : List Char
  expected_output : List Char
  is_hidden : Bool
  order_index : Nat
deriving DecidableEq, Repr

/-- The aggregate response dictionary built by `execute_code`. -/
structure ExecResponse where
  status : CaseStatus
  score : Nat
  total_time_ms : Nat
  cases : List ExecutionResult
  error_message : Option (List Char)
deriving DecidableEq, Repr

/-- `CppExecutor._execute_test_case`, as a function of the Docker result
the sandbox produced for this case.  Mirrors the source's branch order:
compile-marker stderr first, then strict `execution_time > time_limit`,
then non-zero exit, then normalized output comparison. -/
def cpp_case_result (d : DockerResult) (expected_output : List Char)
    (case_id : Nat) (time_limit : Nat) : ExecutionResult :=
  let actual_output := pystrip d.output
  let error_output := pystrip d.error
  let actual_error := filter_debug_lines error_output
  if has_compile_marker actual_error then
    { case_id := case_id, status := .COMPILATION_ERROR,
      time_ms := d.execution_time_ms, memory_mb := 0,
      output := [], expected_output := [], error_message := actual_error }
  else
    let status_msg : CaseStatus × List Char :=
      if time_limit < d.execution_time_ms then
        (.TIME_LIMIT_EXCEEDED,
         ("Execution exceeded time limit of " ++ toString time_limit ++ "ms").data)
      else if d.exit_code ≠ 0 then
        (.RUNTIME_ERROR,
         if actual_error = [] then "Runtime error occurred".data else actual_error)
      else if cpp_normalize actual_output = cpp_normalize expected_output then
        (.ACCEPTED, [])
      else
        (.WRONG_ANSWER, "Output does not match expected result".data)
    { case_id := case_id, status := status_msg.1,
      time_ms := d.execution_time_ms, memory_mb := d.memory_used_mb,
      output := actual_output, expected_output := expected_output,
      error_message := status_msg.2 }

/-- `BaseExecutor.validate_code` (size/emptiness checks shared by all
executors). -/
def base_validate_code (code : List Char) : Bool × List Char :=
  if code = [] ∨ pystrip code = [] then (false, "Code cannot be empty".data)
  else if code.length > 1000000 then (false, "Code exceeds maximum size limit".data)
  else (true, [])

/-- `CppExecutor.validate_code`: base checks, then rejection of the fixed
deny-list of includes, naming the offending include. -/
def cpp_dangerous_includes : List (List Char) :=
  ["<cstdlib>".data, "<filesystem>".data, "<fstream>".data, "<unistd.h>".data]

def cpp_validate_code (code : List Char) : Bool × List Char :=
  let base := base_validate_code code
  if !base.1 then base
  else
    match cpp_dangerous_includes.find? (fun inc => pyIn inc code) with
    | some inc =>
        (false, ("Potentially dangerous include detected: ".data ++ inc ++
                 ". This is not allowed for security reasons.".data))
    | none => (true, [])

/-- `PythonExecutor.validate_code`: base checks, then the deny-list loop,
which in the source only logs (`# For stub, we just log it`) and never
rejects. -/
def python_dangerous_imports : List (List Char) :=
  ["os".data, "sys".data, "subprocess".data, "socket".data]

def python_validate_code (code : List Char) : Bool × List Char :=
  let base := base_validate_code code
  if !base.1 then base
  else (true, [])

/-- The outcome of one `asyncio.create_subprocess_exec` run of the wrapped
user program (`PythonExecutor._execute_test_case`). `timedOut` records
`asyncio.TimeoutError` from `wait_for`. -/
structure PyRunOutcome where
  timedOut : Bool
  returncode : Int
  stdout : List Char
  stderr : List Char
  elapsed_ms : Nat
deriving DecidableEq, Repr

/-- `PythonExecutor._execute_test_case`, as a function of the subprocess
outcome.  Mirrors the source's branch order: `wait_for` timeout first,
then non-zero return code (returned before any time-limit check), then
normalized output comparison, then the strict
`execution_time > time_limit` override. -/
def python_case_result (o : PyRunOutcome) (expected_output : List Char)
    (case_id : Nat) (time_limit : Nat) : ExecutionResult :=
  if o.timedOut then
    { case_id := case_id, status := .TIME_LIMIT_EXCEEDED,
      time_ms := o.elapsed_ms, memory_mb := 0, output := [],
      expected_output := expected_output,
      error_message :=
        ("Execution exceeded time limit of " ++ toString time_limit ++ "ms").data }
  else if o.returncode ≠ 0 then
    { case_id := case_id, status := .RUNTIME_ERROR,
      time_ms := o.elapsed_ms, memory_mb := 0, output := o.stdout,
      expected_output := expected_output,
      error_message :=
        if o.stderr = [] then "Unknown runtime error".data else o.stderr }
  else
    let actual_output := pystrip o.stdout
    let base_status : CaseStatus × List Char :=
      if python_normalize actual_output = python_normalize expected_output then
        (.ACCEPTED, [])
      else
        (.WRONG_ANSWER,
         "Expected: ".data ++ [Char.ofNat 39] ++ expected_output ++
           [Char.ofNat 39] ++ ", Got: ".data ++ [Char.ofNat 39] ++
           actual_output ++ [Char.ofNat 39])
    let final : CaseStatus × List Char :=
      if time_limit < o.elapsed_ms then
        (.TIME_LIMIT_EXCEEDED,
         ("Execution exceeded time limit of " ++ toString time_limit ++ "ms").data)
      else base_status
    { case_id := case_id, status := final.1, time_ms := o.elapsed_ms,
      memory_mb := 0, output := actual_output,
      expected_output := expected_output, error_message := final.2 }

/-- `PythonExecutor.execute_code`: validation (which never rejects the
deny-list), then one subprocess run per test case. -/
def python_execute_code (code : List Char) (test_cases : List TestCase)
    (time_limit : Nat) (outcomes : List PyRunOutcome) : ExecResponse :=
  let valid := python_validate_code code
  if !valid.1 then
    { status := .COMPILATION_ERROR, score := 0, total_time_ms := 0,
      cases := [], error_message := some valid.2 }
  else
    let results := (test_cases.zip outcomes).map fun td =>
      python_case_result td.2 td.1.expected_output td.1.id time_limit
    { status := determine_overall_status results,
      score := calculate_score results,
      total_time_ms := (results.map (·.time_ms)).sum,
      cases := results, error_message := none }

/-! ## Redis queue service (`redis_queue_service.py`) -/

def QUEUE_PREFIX : String := "submission_queue"
def PYTHON_QUEUE : String := QUEUE_PREFIX ++ ":python"
def JAVA_QUEUE : String := QUEUE_PREFIX ++ ":java"
def NODEJS_QUEUE : String := QUEUE_PREFIX ++ ":nodejs"
def CPP_QUEUE : String := QUEUE_PREFIX ++ ":cpp"

/-- Python `str.lower()` on a whole string (ASCII), as a character map. -/
def pyLowerStr (s : String) : String := ⟨pyLower s.data⟩

/-- `RedisQueueService._get_queue_name`: dictionary lookup on
`language.lower()` with default `PYTHON_QUEUE`. -/
def get_queue_name (language : String) : String :=
  let l := pyLowerStr language
  if l = "python" then PYTHON_QUEUE
  else if l = "java" then JAVA_QUEUE
  else if l = "nodejs" then NODEJS_QUEUE
  else if l = "cpp" then CPP_QUEUE
  else PYTHON_QUEUE

/-- Effect descriptor of `RedisQueueService.enqueue_submission`: the Redis
list the job is pushed to and the status key/value written. -/
structure EnqueueEffect where
  queue : String
  status_key : String
  status_value : String
  ok : Bool
deriving DecidableEq, Repr

/-- `RedisQueueService.enqueue_submission` (success path): pushes the job
onto `_get_queue_name(language)` and sets status `QUEUED`. -/
def enqueue_submission (submission_id : String) (language : String) :
    EnqueueEffect where
  queue := get_queue_name language
  status_key := "submission_status:" ++ submission_id
  status_value := "QUEUED"
  ok := true

/-- The queue `RedisQueueService.dequeue_submission` pops from
(`brpop` on `_get_queue_name(language)`). -/
def dequeue_queue (language : String) : String := get_queue_name language

/-! ## Submit use case (`submit_solution_use_case.py`) -/

/-- `Challenge` (the fields the submit path reads). -/
structure Challenge where
  id : String
  status : ChallengeStatus
  time_limit : Nat
  memory_limit : Nat
deriving DecidableEq, Repr

/-- `Challenge.is_published`. -/
def Challenge.is_published (c : Challenge) : Bool :=
  c.status == ChallengeStatus.PUBLISHED

/-- `Challenge.can_be_viewed_by`. -/
def Challenge.can_be_viewed_by (c : Challenge) (role : UserRole) : Bool :=
  c.is_published || role == UserRole.ADMIN || role == UserRole.PROFESSOR

/-- The submission record created by the use case (the fields the claims
read; `domain/entities/submission.py` has no error-message field). -/
structure SubmissionRec where
  user_id : String
  challenge_id : String
  code : List Char
  status : SubmissionStatus
  score : Nat
  time_ms_total : Nat
  cases : List ExecutionResult
deriving DecidableEq, Repr

/-- Job payload (`SubmissionJobDTO`). -/
structure Job where
  challenge_id : String
  user_id : String
  code : List Char
  test_cases : List TestCase
deriving DecidableEq, Repr

/-- Result of `SubmitSolutionUseCase.execute`, together with the state it
wrote: submissions saved to the repository and jobs enqueued. -/
structure SubmitOutcome where
  result : Except (List Char) SubmissionRec
  saved : List SubmissionRec
  enqueued : List Job
deriving Repr

/-- `SubmitSolutionUseCase._validate_code`. -/
def submit_validate_code (code : List Char) : Option (List Char) :=
  if code = [] ∨ pystrip code = [] then some "Code cannot be empty".data
  else if code.length > 10000 then some "Code is too long".data
  else none

/-- `SubmitSolutionUseCase.execute`, as a function of the repository and
queue environment: the looked-up challenge, its test cases, and whether
the enqueue succeeds.  Each `raise ValueError` path returns the error and
records no writes made after the raise. -/
def submit_solution (user_id : String) (user_role : UserRole)
    (challenge : Option Challenge) (test_cases : List TestCase)
    (code : List Char) (enqueue_ok : Bool) : SubmitOutcome :=
  if user_role ≠ UserRole.STUDENT then
    ⟨.error "Only students can submit solutions to challenges".data, [], []⟩
  else
    match challenge with
    | none => ⟨.error "Challenge not found".data, [], []⟩
    | some ch =>
      if !ch.is_published then
        ⟨.error "Challenge is not available for submissions".data, [], []⟩
      else if !ch.can_be_viewed_by user_role then
        ⟨.error "Access denied to this challenge".data, [], []⟩
      else if test_cases = [] then
        ⟨.error ("This challenge has no test cases configured. " ++
                 "Please contact your instructor or administrator.").data, [], []⟩
      else
        match submit_validate_code code with
        | some msg => ⟨.error msg, [], []⟩
        | none =>
          let submission : SubmissionRec :=
            { user_id := user_id, challenge_id := ch.id, code := code,
              status := .QUEUED, score := 0, time_ms_total := 0, cases := [] }
          let job : Job :=
            { challenge_id := ch.id, user_id := user_id, code := code,
              test_cases := test_cases }
          if enqueue_ok then ⟨.ok submission, [submission], [job]⟩
          else
            ⟨.error "Failed to enqueue submission for processing. Please try again.".data,
             [submission], []⟩

/-! ## Worker loop (`code_execution_worker.py`) -/

/-- The worker writes the executor's status string straight onto the
submission record; the terminal status strings coincide. -/
def submission_status_of : CaseStatus → SubmissionStatus
  | .ACCEPTED => .ACCEPTED
  | .WRONG_ANSWER => .WRONG_ANSWER
  | .TIME_LIMIT_EXCEEDED => .TIME_LIMIT_EXCEEDED
  | .RUNTIME_ERROR => .RUNTIME_ERROR
  | .COMPILATION_ERROR => .COMPILATION_ERROR

/-- The fields the worker's failure handler writes back to the submission
(`submission.status/score/cases` before `update`). -/
structure SubUpdate where
  status : SubmissionStatus
  score : Nat
  cases : List ExecutionResult
deriving DecidableEq, Repr

/-- Environment of one `CodeExecutionWorker._process_job` call: whether the
prepare use case succeeds, whether any of steps 3–8 raises, whether the
submission can still be fetched and updated inside the `except` handler,
and the executor response on the normal path. -/
structure JobEnv where
  prepare_ok : Bool
  raises : Bool
  mark_write_ok : Bool
  exec_response : ExecResponse
deriving Repr

/-- `CodeExecutionWorker._process_job`: the submission update it performs
and whether control returns to the worker loop (it always does — every
exception is caught and swallowed). -/
def process_job (env : JobEnv) : Option SubUpdate × Bool :=
  if !env.prepare_ok then (none, true)
  else if env.raises then
    (if env.mark_write_ok then
       some { status := .RUNTIME_ERROR, score := 0, cases := [] }
     else none, true)
  else
    (some { status := submission_status_of env.exec_response.status,
            score := env.exec_response.score,
            cases := env.exec_response.cases }, true)

/-- The worker loop body (`CodeExecutionWorker.start`): one iteration never
clears `self.running` — only the signal handler does — so the guard for
the next iteration equals the current `running` flag whatever the job
processing did. -/
def worker_loop_continues (running : Bool) (_env : JobEnv) : Bool := running

/-! ## Spec-side definitions used for refinement comparison -/

/-- Modelled from the spec's words (§3 invariant 2, §4.2 Score):
`score = round(100 · passed_cases / total_cases)`, integer-rounded
(round half up; any rounding convention separates from truncation at
the counterexample below). -/
def spec_round_score (passed total : Nat) : Nat :=
  (2 * (100 * passed) + total) / (2 * total)

/-! ## Theorems -/

/-- C1, counterexample: with per-case results ACCEPTED, ACCEPTED,
WRONG_ANSWER the source's `int((passed/len)*100)` yields 66, while the
claimed `round(100·2/3)` is 67; and with 29 of 50 cases ACCEPTED the
double-rounded value is 57 (`int(0.58 * 100)` in CPython), against both
`round` and the exact floor, which are 58. -/
theorem C1_score_not_rounded :
    calculate_score
      [⟨1, .ACCEPTED, 5, 0, [], [], []⟩, ⟨2, .ACCEPTED, 5, 0, [], [], []⟩,
       ⟨3, .WRONG_ANSWER, 5, 0, [], [], []⟩] = 66 ∧
    spec_round_score 2 3 = 67 ∧ (66 : Nat) ≠ 67 ∧
    calculate_score
        (List.replicate 29 ⟨1, .ACCEPTED, 5, 0, [], [], []⟩ ++
         List.replicate 21 ⟨2, .WRONG_ANSWER, 5, 0, [], [], []⟩) = 57 ∧
    spec_round_score 29 50 = 58 ∧ (100 * 29) / 50 = 58 ∧ (57 : Nat) ≠ 58 := by
  decide

/-- C1, amended: for every non-empty result list the score is the
binary64 evaluation of `int((passed/total) * 100)` — the division rounded
to nearest-even, the product rounded again, then truncated toward zero —
where `passed` counts the ACCEPTED cases.  This truncating computation
differs from `round` (2 of 3 gives 66, not 67) and, through double
rounding, can even land one below the exact floor (29 of 50 gives 57,
not 58). -/
theorem C1_score_float_truncation (results : List ExecutionResult)
    (h : results ≠ []) :
    calculate_score results =
      py_int_div_mul100 (results.countP fun r => r.status == CaseStatus.ACCEPTED)
        results.length := by
  simp only [calculate_score, if_neg h, List.countP_eq_length_filter]

/-- Witness for `C1_score_float_truncation` at a concrete two-case list. -/
theorem C1_score_float_truncation_witness :
    ([⟨1, .ACCEPTED, 5, 0, [], [], []⟩, ⟨2, .WRONG_ANSWER, 5, 0, [], [], []⟩] :
        List ExecutionResult) ≠ [] ∧
    calculate_score
        [⟨1, .ACCEPTED, 5, 0, [], [], []⟩, ⟨2, .WRONG_ANSWER, 5, 0, [], [], []⟩] =
      py_int_div_mul100
        (List.countP (fun r : ExecutionResult => r.status == CaseStatus.ACCEPTED)
          [⟨1, .ACCEPTED, 5, 0, [], [], []⟩, ⟨2, .WRONG_ANSWER, 5, 0, [], [], []⟩])
        ([⟨1, .ACCEPTED, 5, 0, [], [], []⟩,
          ⟨2, .WRONG_ANSWER, 5, 0, [], [], []⟩] : List ExecutionResult).length :=
  ⟨by decide, C1_score_float_truncation _ (by decide)⟩

/-- C2: for every non-empty result list the overall verdict follows the
precedence COMPILATION_ERROR > RUNTIME_ERROR > TIME_LIMIT_EXCEEDED >
(all ACCEPTED ⇒ ACCEPTED) > WRONG_ANSWER; `determine_overall_status` is
a pure function of the case list, hence deterministic. -/
theorem C2_verdict_precedence (rs : List ExecutionResult) (h : rs ≠ []) :
    ((∃ r ∈ rs, r.status = .COMPILATION_ERROR) →
        determine_overall_status rs = .COMPILATION_ERROR) ∧
    ((∀ r ∈ rs, r.status ≠ .COMPILATION_ERROR) →
      (∃ r ∈ rs, r.status = .RUNTIME_ERROR) →
        determine_overall_status rs = .RUNTIME_ERROR) ∧
    ((∀ r ∈ rs, r.status ≠ .COMPILATION_ERROR ∧ r.status ≠ .RUNTIME_ERROR) →
      (∃ r ∈ rs, r.status = .TIME_LIMIT_EXCEEDED) →
        determine_overall_status rs = .TIME_LIMIT_EXCEEDED) ∧
    ((∀ r ∈ rs, r.status = .ACCEPTED) →
        determine_overall_status rs = .ACCEPTED) ∧
    ((∀ r ∈ rs, r.status ≠ .COMPILATION_ERROR ∧ r.status ≠ .RUNTIME_ERROR ∧
        r.status ≠ .TIME_LIMIT_EXCEEDED) →
      ¬ (∀ r ∈ rs, r.status = .ACCEPTED) →
        determine_overall_status rs = .WRONG_ANSWER) := by
  have hCE : (rs.any fun r => r.status == CaseStatus.COMPILATION_ERROR) = true ↔
      ∃ r ∈ rs, r.status = CaseStatus.COMPILATION_ERROR := by
    simp [List.any_eq_true, decide_eq_true_eq]
  have hRE : (rs.any fun r => r.status == CaseStatus.RUNTIME_ERROR) = true ↔
      ∃ r ∈ rs, r.status = CaseStatus.RUNTIME_ERROR := by
    simp [List.any_eq_true, decide_eq_true_eq]
  have hTL : (rs.any fun r => r.status == CaseStatus.TIME_LIMIT_EXCEEDED) = true ↔
      ∃ r ∈ rs, r.status = CaseStatus.TIME_LIMIT_EXCEEDED := by
    simp [List.any_eq_true, decide_eq_true_eq]
  have hAC : (rs.all fun r => r.status == CaseStatus.ACCEPTED) = true ↔
      ∀ r ∈ rs, r.status = CaseStatus.ACCEPTED := by
    simp [List.all_eq_true, decide_eq_true_eq]
  simp only [determine_overall_status, if_neg h]
  refine ⟨?_, ?_, ?_, ?_, ?_⟩
  · intro hex
    rw [if_pos (hCE.mpr hex)]
  · intro hno hex
    rw [if_neg (fun hc => (let ⟨r, hr, hs⟩ := hCE.mp hc; hno r hr hs)),
        if_pos (hRE.mpr hex)]
  · intro hno hex
    rw [if_neg (fun hc => (let ⟨r, hr, hs⟩ := hCE.mp hc; (hno r hr).1 hs)),
        if_neg (fun hc => (let ⟨r, hr, hs⟩ := hRE.mp hc; (hno r hr).2 hs)),
        if_pos (hTL.mpr hex)]
  · intro hall
    have h1 : ¬ (rs.any fun r => r.status == CaseStatus.COMPILATION_ERROR) = true := by
      rw [hCE]; rintro ⟨r, hr, hs⟩; rw [hall r hr] at hs; cases hs
    have h2 : ¬ (rs.any fun r => r.status == CaseStatus.RUNTIME_ERROR) = true := by
      rw [hRE]; rintro ⟨r, hr, hs⟩; rw [hall r hr] at hs; cases hs
    have h3 : ¬ (rs.any fun r => r.status == CaseStatus.TIME_LIMIT_EXCEEDED) = true := by
      rw [hTL]; rintro ⟨r, hr, hs⟩; rw [hall r hr] at hs; cases hs
    rw [if_neg h1, if_neg h2, if_neg h3, if_pos (hAC.mpr hall)]
  · intro hno hnall
    rw [if_neg (fun hc => (let ⟨r, hr, hs⟩ := hCE.mp hc; (hno r hr).1 hs)),
        if_neg (fun hc => (let ⟨r, hr, hs⟩ := hRE.mp hc; (hno r hr).2.1 hs)),
        if_neg (fun hc => (let ⟨r, hr, hs⟩ := hTL.mp hc; (hno r hr).2.2 hs)),
        if_neg (fun hc => hnall (hAC.mp hc))]

/-- Witness for `C2_verdict_precedence`: a COMPILATION_ERROR case forces
the COMPILATION_ERROR verdict on a concrete two-case list. -/
theorem C2_verdict_precedence_witness :
    determine_overall_status
      [⟨1, .COMPILATION_ERROR, 0, 0, [], [], []⟩,
       ⟨2, .ACCEPTED, 5, 0, [], [], []⟩] = .COMPILATION_ERROR :=
  (C2_verdict_precedence
      [⟨1, .COMPILATION_ERROR, 0, 0, [], [], []⟩, ⟨2, .ACCEPTED, 5, 0, [], [], []⟩]
      (by decide)).1
    ⟨⟨1, .COMPILATION_ERROR, 0, 0, [], [], []⟩, by decide, rfl⟩

/-- C3, counterexample: in the Python executor a run that finishes inside
the `wait_for` window with exit code 1 after 1500 ms against a 1000 ms
limit is classified RUNTIME_ERROR, not TIME_LIMIT_EXCEEDED — the
non-zero-exit branch returns before any time-limit check. -/
theorem C3_runtime_error_beats_tle_in_python :
    (python_case_result ⟨false, 1, [], "boom".data, 1500⟩ [] 1 1000).status =
      .RUNTIME_ERROR ∧ 1000 < 1500 ∧
    CaseStatus.RUNTIME_ERROR ≠ .TIME_LIMIT_EXCEEDED := by decide

/-- C3, amended: (a) in the C++ executor an over-limit case is
TIME_LIMIT_EXCEEDED regardless of exit code, provided the filtered stderr
carries no compiler marker; (b) in the Python executor a `wait_for`
timeout is TIME_LIMIT_EXCEEDED; (c) a zero-exit over-limit Python run is
TIME_LIMIT_EXCEEDED; (d) but a non-zero-exit Python run is RUNTIME_ERROR
even when over the limit. -/
theorem C3_tle_precedence_amended :
    (∀ (d : DockerResult) (e : List Char) (cid L : Nat),
      has_compile_marker (filter_debug_lines (pystrip d.error)) = false →
      L < d.execution_time_ms →
      (cpp_case_result d e cid L).status = .TIME_LIMIT_EXCEEDED) ∧
    (∀ (o : PyRunOutcome) (e : List Char) (cid L : Nat),
      o.timedOut = true →
      (python_case_result o e cid L).status = .TIME_LIMIT_EXCEEDED) ∧
    (∀ (o : PyRunOutcome) (e : List Char) (cid L : Nat),
      o.timedOut = false → o.returncode = 0 → L < o.elapsed_ms →
      (python_case_result o e cid L).status = .TIME_LIMIT_EXCEEDED) ∧
    (∀ (o : PyRunOutcome) (e : List Char) (cid L : Nat),
      o.timedOut = false → o.returncode ≠ 0 →
      (python_case_result o e cid L).status = .RUNTIME_ERROR) := by
  refine ⟨?_, ?_, ?_, ?_⟩
  · intro d e cid L hm hl
    simp only [cpp_case_result, hm, Bool.false_eq_true, if_false, if_pos hl]
  · intro o e cid L h
    simp only [python_case_result, h, if_true]
  · intro o e cid L h hr hl
    simp only [python_case_result, h, Bool.false_eq_true, if_false, hr, ne_eq,
      not_true_eq_false, if_pos hl]
  · intro o e cid L h hr
    simp only [python_case_result, h, Bool.false_eq_true, if_false, if_pos hr]

/-- Witness for `C3_tle_precedence_amended` at concrete runs. -/
theorem C3_tle_precedence_amended_witness :
    (cpp_case_result ⟨false, "5".data, [], 1, 1500, 0⟩ "5".data 1 1000).status =
      .TIME_LIMIT_EXCEEDED ∧
    (python_case_result ⟨true, 0, [], [], 1600⟩ [] 1 1000).status =
      .TIME_LIMIT_EXCEEDED ∧
    (python_case_result ⟨false, 0, "5".data, [], 1500⟩ "5".data 1 1000).status =
      .TIME_LIMIT_EXCEEDED ∧
    (python_case_result ⟨false, 1, [], [], 1500⟩ [] 1 1000).status =
      .RUNTIME_ERROR :=
  ⟨C3_tle_precedence_amended.1 ⟨false, "5".data, [], 1, 1500, 0⟩ "5".data 1 1000
      (by decide) (by decide),
   C3_tle_precedence_amended.2.1 ⟨true, 0, [], [], 1600⟩ [] 1 1000 rfl,
   C3_tle_precedence_amended.2.2.1 ⟨false, 0, "5".data, [], 1500⟩ "5".data 1 1000
      rfl rfl (by decide),
   C3_tle_precedence_amended.2.2.2 ⟨false, 1, [], [], 1500⟩ [] 1 1000 rfl (by decide)⟩

/-- C4: the claim is right and the code is wrong.  The Python deny-list
loop in `PythonExecutor.validate_code` only logs (`# In production, this
should reject the code / # For stub, we just log it`): source containing
`import os` passes validation and every test case is executed, while the
C++ executor does reject its deny-list.  Evaluation at the failing
input. -/
theorem C4_python_deny_list_not_enforced :
    python_validate_code "import os\nx = 1".data = (true, []) ∧
    pyIn "import os".data "import os\nx = 1".data = true ∧
    (python_execute_code "import os\nx = 1".data [⟨1, [], "ok".data, false, 0⟩] 1000
        [⟨false, 0, "ok".data, [], 10⟩]).status = .ACCEPTED ∧
    (python_execute_code "import os\nx = 1".data [⟨1, [], "ok".data, false, 0⟩] 1000
        [⟨false, 0, "ok".data, [], 10⟩]).cases.length = 1 ∧
    (cpp_validate_code "#include <fstream>\nint main() { return 0; }".data).1 =
      false := by decide

/-- C6, counterexample: code consisting of three spaces is non-empty and
well under the 10000-character bound, so by the claim all preconditions
hold and a submission should be created; the source's
`if not code or not code.strip()` raises "Code cannot be empty" and
nothing is saved or enqueued. -/
theorem C6_blank_code_rejected :
    (submit_solution "u1" .STUDENT (some ⟨"ch1", .PUBLISHED, 1000, 256⟩)
        [⟨1, [], "10".data, false, 0⟩] "   ".data true).result =
      .error "Code cannot be empty".data ∧
    "   ".data ≠ [] ∧ "   ".data.length ≤ 10000 ∧
    (submit_solution "u1" .STUDENT (some ⟨"ch1", .PUBLISHED, 1000, 256⟩)
        [⟨1, [], "10".data, false, 0⟩] "   ".data true).saved = [] :=
  ⟨rfl, by decide, by decide, rfl⟩

/-- C6, amended: a validation error is raised — with no submission saved
and no job enqueued — whenever the role is not STUDENT, the challenge is
missing or not PUBLISHED, there are no test cases, the code is blank
(empty or whitespace-only) or longer than 10000 characters; when all
these preconditions hold and the enqueue succeeds, a QUEUED submission is
saved and a job is enqueued. -/
theorem C6_submit_preconditions (uid : String) (role : UserRole)
    (ch : Option Challenge) (tcs : List TestCase) (code : List Char)
    (enqOk : Bool) :
    ((role ≠ .STUDENT ∨ ch = none ∨ (∃ c, ch = some c ∧ c.status ≠ .PUBLISHED) ∨
        tcs = [] ∨ pystrip code = [] ∨ code.length > 10000) →
      (∃ msg, (submit_solution uid role ch tcs code enqOk).result = .error msg) ∧
      (submit_solution uid role ch tcs code enqOk).saved = [] ∧
      (submit_solution uid role ch tcs code enqOk).enqueued = []) ∧
    (∀ c, role = .STUDENT → ch = some c → c.status = .PUBLISHED → tcs ≠ [] →
      pystrip code ≠ [] → code.length ≤ 10000 → enqOk = true →
      ∃ s, (submit_solution uid role ch tcs code enqOk).result = .ok s ∧
        s.status = .QUEUED ∧ s.code = code ∧
        (submit_solution uid role ch tcs code enqOk).saved = [s] ∧
        (submit_solution uid role ch tcs code enqOk).enqueued =
          [{ challenge_id := c.id, user_id := uid, code := code,
             test_cases := tcs }]) := by
  constructor
  · intro hfail
    by_cases hrole : role = UserRole.STUDENT
    · cases ch with
      | none => simp [submit_solution, hrole]
      | some c =>
        by_cases hpub : c.status = ChallengeStatus.PUBLISHED
        · have hrest : tcs = [] ∨ pystrip code = [] ∨ code.length > 10000 := by
            rcases hfail with h | h | ⟨c', hc', hs⟩ | h | h | h
            · exact absurd hrole h
            · cases h
            · cases hc'; exact absurd hpub hs
            · exact Or.inl h
            · exact Or.inr (Or.inl h)
            · exact Or.inr (Or.inr h)
          have hview : Challenge.is_published c = true := by
            simp [Challenge.is_published, hpub]
          rcases hrest with h | h | h
          · simp [submit_solution, hrole, hview, Challenge.can_be_viewed_by, h]
          · have hempty : (code = [] ∨ pystrip code = []) := Or.inr h
            by_cases htcs : tcs = []
            · simp [submit_solution, hrole, hview, Challenge.can_be_viewed_by, htcs]
            · simp [submit_solution, hrole, hview, Challenge.can_be_viewed_by, htcs,
                submit_validate_code, hempty]
          · by_cases htcs : tcs = []
            · simp [submit_solution, hrole, hview, Challenge.can_be_viewed_by, htcs]
            · by_cases hempty : code = [] ∨ pystrip code = []
              · simp [submit_solution, hrole, hview, Challenge.can_be_viewed_by,
                  htcs, submit_validate_code, hempty]
              · simp [submit_solution, hrole, hview, Challenge.can_be_viewed_by,
                  htcs, submit_validate_code, hempty, h]
        · have hview : Challenge.is_published c = false := by
            simp [Challenge.is_published, hpub]
          simp [submit_solution, hrole, hview]
    · simp [submit_solution, hrole]
  · intro c hrole hch hpub htcs hcode hlen henq
    subst hch
    have hview : Challenge.is_published c = true := by
      simp [Challenge.is_published, hpub]
    have hvc : submit_validate_code code = none := by
      have hne : ¬ (code = [] ∨ pystrip code = []) := by
        rintro (h | h)
        · exact hcode (by simp [h, pystrip, lstripWS, rstripWS])
        · exact hcode h
      simp [submit_validate_code, hne, Nat.not_lt.mpr hlen]
    refine ⟨{ user_id := uid, challenge_id := c.id, code := code, status := .QUEUED,
              score := 0, time_ms_total := 0, cases := [] },
            ?_, rfl, rfl, ?_, ?_⟩ <;>
      simp [submit_solution, hrole, hview, Challenge.can_be_viewed_by, htcs, hvc,
        henq]

/-- Witness for `C6_submit_preconditions`: the happy path at a concrete
published challenge with one test case. -/
theorem C6_submit_preconditions_witness :
    ∃ s, (submit_solution "u1" .STUDENT (some ⟨"ch1", .PUBLISHED, 1000, 256⟩)
            [⟨1, [], "10".data, false, 0⟩] "print(1)".data true).result = .ok s ∧
      s.status = .QUEUED ∧ s.code = "print(1)".data ∧
      (submit_solution "u1" .STUDENT (some ⟨"ch1", .PUBLISHED, 1000, 256⟩)
          [⟨1, [], "10".data, false, 0⟩] "print(1)".data true).saved = [s] ∧
      (submit_solution "u1" .STUDENT (some ⟨"ch1", .PUBLISHED, 1000, 256⟩)
          [⟨1, [], "10".data, false, 0⟩] "print(1)".data true).enqueued =
        [{ challenge_id := "ch1", user_id := "u1", code := "print(1)".data,
           test_cases := [⟨1, [], "10".data, false, 0⟩] }] :=
  (C6_submit_preconditions "u1" .STUDENT (some ⟨"ch1", .PUBLISHED, 1000, 256⟩)
      [⟨1, [], "10".data, false, 0⟩] "print(1)".data true).2
    ⟨"ch1", .PUBLISHED, 1000, 256⟩ rfl rfl rfl (by decide) (by decide) (by decide) rfl

/-- C7, counterexample: on a wall-clock breach the runner's stderr field is
the string "Execution exceeded time limit of 1000ms", not "timeout"; and
because the reported elapsed time equals (does not exceed) the limit, the
C++ executor classifies the exit-code-124 result as RUNTIME_ERROR, not
TIME_LIMIT_EXCEEDED. -/
theorem C7_timeout_result_mismatch :
    (docker_timeout_result 1000).error ≠ "timeout".data ∧
    (docker_timeout_result 1000).exit_code = 124 ∧
    (docker_timeout_result 1000).execution_time_ms = 1000 ∧
    (cpp_case_result (docker_timeout_result 1000) [] 1 1000).status =
      .RUNTIME_ERROR ∧
    CaseStatus.RUNTIME_ERROR ≠ .TIME_LIMIT_EXCEEDED := by decide

/-- C7, amended: the runner enforces `wall_time_ms + 1000` and on breach
returns `{exit_code=124, elapsed_ms=wall_time_ms,
stderr="Execution exceeded time limit of <wall_time_ms>ms"}`; since the
elapsed time is not strictly greater than the limit, the C++ executor
classifies this result as RUNTIME_ERROR (the message contains no compiler
marker), not TIME_LIMIT_EXCEEDED. -/
theorem C7_timeout_result_amended (L : Nat) :
    docker_timeout_budget_ms L = L + 1000 ∧
    (docker_timeout_result L).exit_code = 124 ∧
    (docker_timeout_result L).execution_time_ms = L ∧
    (docker_timeout_result L).error =
      ("Execution exceeded time limit of " ++ toString L ++ "ms").data ∧
    (∀ (e : List Char) (cid : Nat),
      has_compile_marker
          (filter_debug_lines (pystrip (docker_timeout_result L).error)) = false →
      (cpp_case_result (docker_timeout_result L) e cid L).status = .RUNTIME_ERROR) := by
  refine ⟨rfl, rfl, rfl, rfl, ?_⟩
  intro e cid hm
  simp only [cpp_case_result, hm, Bool.false_eq_true, if_false]
  have h1 : ¬ (L < (docker_timeout_result L).execution_time_ms) := by
    simp [docker_timeout_result]
  have h2 : (docker_timeout_result L).exit_code ≠ 0 := by
    simp [docker_timeout_result]
  simp only [if_neg h1, if_pos h2]

/-- Witness for `C7_timeout_result_amended` at a 1000 ms limit. -/
theorem C7_timeout_result_amended_witness :
    docker_timeout_budget_ms 1000 = 2000 ∧
    (cpp_case_result (docker_timeout_result 1000) "5".data 1 1000).status =
      .RUNTIME_ERROR :=
  ⟨(C7_timeout_result_amended 1000).1,
   (C7_timeout_result_amended 1000).2.2.2.2 "5".data 1 (by decide)⟩

/-- C9, counterexample: the worker's exception handler writes
`{status := RUNTIME_ERROR, score := 0, cases := []}` to the submission —
the entity has no error-message field and the case list is emptied, so no
explanatory message is recorded anywhere. -/
theorem C9_failure_update_has_no_message :
    process_job ⟨true, true, true, ⟨.ACCEPTED, 100, 10, [], none⟩⟩ =
      (some ⟨.RUNTIME_ERROR, 0, []⟩, true) ∧
    (⟨.RUNTIME_ERROR, 0, []⟩ : SubUpdate).cases = [] := by decide

/-- C9, amended: when processing raises after the submission was fetched,
the worker best-effort marks the submission RUNTIME_ERROR with score 0 and
an empty case list (no explanatory message is stored); if even that write
fails, no update happens; and in every environment control returns to the
worker loop — a job failure never terminates the worker. -/
theorem C9_worker_failure_amended (env : JobEnv) (hp : env.prepare_ok = true)
    (hr : env.raises = true) :
    (process_job env).2 = true ∧
    (env.mark_write_ok = true →
      (process_job env).1 = some ⟨.RUNTIME_ERROR, 0, []⟩) ∧
    (env.mark_write_ok = false → (process_job env).1 = none) ∧
    (∀ env' : JobEnv, (process_job env').2 = true) ∧
    (∀ running : Bool, worker_loop_continues running env = running) := by
  refine ⟨?_, ?_, ?_, ?_, fun _ => rfl⟩
  · simp [process_job, hp, hr]
  · intro hm; simp [process_job, hp, hr, hm]
  · intro hm; simp [process_job, hp, hr, hm]
  · intro env'
    by_cases h1 : env'.prepare_ok = true <;> by_cases h2 : env'.raises = true <;>
      simp [process_job, h1, h2]

/-- Witness for `C9_worker_failure_amended` at a concrete failing job. -/
theorem C9_worker_failure_amended_witness :
    (process_job ⟨true, true, true, ⟨.ACCEPTED, 100, 10, [], none⟩⟩).2 = true ∧
    (process_job ⟨true, true, true, ⟨.ACCEPTED, 100, 10, [], none⟩⟩).1 =
      some ⟨.RUNTIME_ERROR, 0, []⟩ :=
  ⟨(C9_worker_failure_amended ⟨true, true, true, ⟨.ACCEPTED, 100, 10, [], none⟩⟩
      rfl rfl).1,
   (C9_worker_failure_amended ⟨true, true, true, ⟨.ACCEPTED, 100, 10, [], none⟩⟩
      rfl rfl).2.1 rfl⟩

/-- C10: any language string whose lowercased form is not python, java,
nodejs or cpp resolves to the python queue; enqueue and dequeue for such a
language silently operate on `submission_queue:python` and the enqueue
still reports success. -/
theorem C10_unknown_language_uses_python_queue (language sid : String)
    (h : pyLowerStr language ∉ (["python", "java", "nodejs", "cpp"] : List String)) :
    get_queue_name language = "submission_queue:python" ∧
    (enqueue_submission sid language).queue = "submission_queue:python" ∧
    (enqueue_submission sid language).ok = true ∧
    dequeue_queue language = "submission_queue:python" := by
  simp only [List.mem_cons, List.not_mem_nil, or_false, not_or] at h
  obtain ⟨h1, h2, h3, h4⟩ := h
  have hq : get_queue_name language = "submission_queue:python" := by
    simp only [get_queue_name, h1, h2, h3, h4, if_false]
    rfl
  exact ⟨hq, hq, rfl, hq⟩

/-- Witness for `C10_unknown_language_uses_python_queue` at
`language = "RUBY"`. -/
theorem C10_unknown_language_uses_python_queue_witness :
    get_queue_name "RUBY" = "submission_queue:python" ∧
    (enqueue_submission "s1" "RUBY").queue = "submission_queue:python" ∧
    (enqueue_submission "s1" "RUBY").ok = true ∧
    dequeue_queue "RUBY" = "submission_queue:python" :=
  C10_unknown_language_uses_python_queue "RUBY" "s1" (by decide)

/-! ## String-normalization lemmas (claim C8) -/

section DropWhileLemmas
variable {α : Type} (p : α → Bool)

theorem dropWhile_head?_not : ∀ (l : List α) (c : α),
    (l.dropWhile p).head? = some c → p c = false := by
  intro l
  induction l with
  | nil => intro c h; cases h
  | cons a t ih =>
    intro c h
    by_cases ha : p a
    · rw [List.dropWhile_cons, if_pos ha] at h
      exact ih c h
    · rw [List.dropWhile_cons, if_neg ha] at h
      cases h
      exact Bool.eq_false_iff.mpr ha

theorem dropWhile_eq_self_of_head (l : List α)
    (h : ∀ c, l.head? = some c → p c = false) : l.dropWhile p = l := by
  cases l with
  | nil => rfl
  | cons a t =>
    rw [List.dropWhile_cons, if_neg]
    rw [h a rfl]
    simp

theorem dropWhile_getLast? : ∀ (l : List α),
    l.dropWhile p ≠ [] → (l.dropWhile p).getLast? = l.getLast? := by
  intro l
  induction l with
  | nil => intro h; cases h rfl
  | cons a t ih =>
    intro h
    by_cases ha : p a
    · rw [List.dropWhile_cons, if_pos ha] at h ⊢
      have ht : t ≠ [] := by
        rintro rfl; exact h rfl
      obtain ⟨b, t', rfl⟩ := List.exists_cons_of_ne_nil ht
      rw [ih h, List.getLast?_cons_cons]
    · rw [List.dropWhile_cons, if_neg ha]

end DropWhileLemmas

-- rstrip-style facts, for a generic Bool predicate
section RStrip
variable (p : Char → Bool)

/-- right-strip with predicate `p`, the common shape of `rstripWS`/`rstripNl`. -/
theorem rstrip_getLast?_not (l : List Char) (c : Char)
    (h : ((l.reverse.dropWhile p).reverse).getLast? = some c) : p c = false := by
  rw [List.getLast?_reverse] at h
  exact dropWhile_head?_not p _ c h

theorem rstrip_head? (l : List Char)
    (h : (l.reverse.dropWhile p).reverse ≠ []) :
    ((l.reverse.dropWhile p).reverse).head? = l.head? := by
  rw [List.head?_reverse]
  have h' : l.reverse.dropWhile p ≠ [] := by
    intro hh; rw [hh] at h; exact h rfl
  rw [dropWhile_getLast? p _ h', List.getLast?_reverse]

theorem rstrip_eq_self (l : List Char)
    (h : ∀ c, l.getLast? = some c → p c = false) :
    (l.reverse.dropWhile p).reverse = l := by
  rw [dropWhile_eq_self_of_head p l.reverse, List.reverse_reverse]
  intro c hc
  rw [List.head?_reverse] at hc
  exact h c hc

end RStrip

theorem pystrip_head?_not (l : List Char) (c : Char)
    (h : (pystrip l).head? = some c) : pyIsSpace c = false := by
  have hne : pystrip l ≠ [] := by
    intro hh; rw [hh] at h; cases h
  unfold pystrip rstripWS at h hne
  rw [rstrip_head? pyIsSpace _ hne] at h
  exact dropWhile_head?_not pyIsSpace _ c h

theorem pystrip_getLast?_not (l : List Char) (c : Char)
    (h : (pystrip l).getLast? = some c) : pyIsSpace c = false := by
  unfold pystrip rstripWS at h
  exact rstrip_getLast?_not pyIsSpace _ c h

theorem pystrip_eq_self (l : List Char)
    (h1 : ∀ c, l.head? = some c → pyIsSpace c = false)
    (h2 : ∀ c, l.getLast? = some c → pyIsSpace c = false) : pystrip l = l := by
  unfold pystrip lstripWS rstripWS
  rw [dropWhile_eq_self_of_head pyIsSpace l h1]
  exact rstrip_eq_self pyIsSpace l h2

-- replaceCRLF lemmas
theorem replaceCRLF_of_no_cr (l : List Char) (h : '\r' ∉ l) :
    replaceCRLF l = l := by
  induction l using replaceCRLF.induct with
  | case1 => rfl
  | case2 c => rfl
  | case3 c1 c2 rest hif ih =>
    obtain ⟨rfl, rfl⟩ := hif
    exact absurd (List.mem_cons_self _ _) h
  | case4 c1 c2 rest hif ih =>
    simp only [replaceCRLF]
    rw [if_neg hif, ih]
    intro hm; exact h (List.mem_cons_of_mem _ hm)

theorem replaceCRLF_ne_nil (l : List Char) (h : l ≠ []) : replaceCRLF l ≠ [] := by
  induction l using replaceCRLF.induct with
  | case1 => exact absurd rfl h
  | case2 c => simp [replaceCRLF]
  | case3 c1 c2 rest hif ih =>
    obtain ⟨rfl, rfl⟩ := hif
    simp [replaceCRLF]
  | case4 c1 c2 rest hif ih =>
    simp only [replaceCRLF]
    rw [if_neg hif]
    simp

theorem replaceCRLF_head? (l : List Char) (c : Char) (h : l.head? = some c)
    (hc : c ≠ '\r') : (replaceCRLF l).head? = some c := by
  match l with
  | [] => cases h
  | [a] => cases h; rfl
  | a :: b :: t =>
    cases h
    simp only [replaceCRLF]
    rw [if_neg]
    · rfl
    · rintro ⟨rfl, rfl⟩; exact hc rfl

theorem replaceCRLF_getLast? (l : List Char) (c : Char)
    (h : l.getLast? = some c) (hc : pyIsSpace c = false) :
    (replaceCRLF l).getLast? = some c := by
  induction l using replaceCRLF.induct with
  | case1 => cases h
  | case2 a => cases h; rfl
  | case3 c1 c2 rest hif ih =>
    obtain ⟨rfl, rfl⟩ := hif
    have hrest : rest ≠ [] := by
      rintro rfl
      rw [List.getLast?_cons_cons] at h
      cases h
      simp [pyIsSpace] at hc
    rw [List.getLast?_cons_cons] at h
    obtain ⟨b, t', rfl⟩ := List.exists_cons_of_ne_nil hrest
    rw [List.getLast?_cons_cons] at h
    simp only [replaceCRLF, eq_self_iff_true, and_self, if_true]
    have hne := replaceCRLF_ne_nil (b :: t') (by simp)
    obtain ⟨d, u, hu⟩ := List.exists_cons_of_ne_nil hne
    rw [hu, List.getLast?_cons_cons, ← hu, ih h]
  | case4 c1 c2 rest hif ih =>
    rw [List.getLast?_cons_cons] at h
    simp only [replaceCRLF]
    rw [if_neg hif]
    have hne := replaceCRLF_ne_nil (c2 :: rest) (by simp)
    obtain ⟨d, u, hu⟩ := List.exists_cons_of_ne_nil hne
    rw [hu, List.getLast?_cons_cons, ← hu, ih h]

-- replaceCR lemmas
theorem replCRChar_of_not_cr (c : Char) (h : c ≠ '\r') : replCRChar c = c := by
  simp [replCRChar, h]

theorem no_cr_replaceCR (l : List Char) : '\r' ∉ replaceCR l := by
  intro hm
  simp only [replaceCR, List.mem_map] at hm
  obtain ⟨a, _, ha⟩ := hm
  by_cases h : a = '\r'
  · rw [h] at ha; simp [replCRChar] at ha
  · rw [replCRChar_of_not_cr a h] at ha; exact h ha

theorem replaceCR_of_no_cr (l : List Char) (h : '\r' ∉ l) : replaceCR l = l := by
  unfold replaceCR
  rw [List.map_congr_left, List.map_id]
  intro a ha
  exact replCRChar_of_not_cr a (fun heq => h (heq ▸ ha))

theorem replaceCR_head? (l : List Char) :
    (replaceCR l).head? = l.head?.map replCRChar := by
  cases l <;> simp [replaceCR]

theorem replaceCR_getLast? (l : List Char) :
    (replaceCR l).getLast? = l.getLast?.map replCRChar := by
  rw [← List.head?_reverse, ← List.head?_reverse, replaceCR, ← List.map_reverse,
    ← replaceCR, replaceCR_head?]

theorem pyIsSpace_cr : pyIsSpace '\r' = true := by decide
theorem pyIsSpace_nl : pyIsSpace '\n' = true := by decide

theorem norm_core_head?_not (l : List Char) (c : Char)
    (h : (replaceCR (replaceCRLF (pystrip l))).head? = some c) :
    pyIsSpace c = false := by
  cases hs : (pystrip l).head? with
  | none =>
    rw [List.head?_eq_none_iff] at hs
    rw [hs] at h
    cases h
  | some c0 =>
    have hc0 : pyIsSpace c0 = false := pystrip_head?_not l c0 hs
    have hne : c0 ≠ '\r' := by
      rintro rfl; rw [pyIsSpace_cr] at hc0; cases hc0
    rw [replaceCR_head?, replaceCRLF_head? _ c0 hs hne] at h
    rw [Option.map_some'] at h
    cases h
    rw [replCRChar_of_not_cr c0 hne]
    exact hc0

theorem norm_core_getLast?_not (l : List Char) (c : Char)
    (h : (replaceCR (replaceCRLF (pystrip l))).getLast? = some c) :
    pyIsSpace c = false := by
  cases hs : (pystrip l).getLast? with
  | none =>
    rw [List.getLast?_eq_none_iff] at hs
    rw [hs] at h
    cases h
  | some c0 =>
    have hc0 : pyIsSpace c0 = false := pystrip_getLast?_not l c0 hs
    have hne : c0 ≠ '\r' := by
      rintro rfl; rw [pyIsSpace_cr] at hc0; cases hc0
    rw [replaceCR_getLast?, replaceCRLF_getLast? _ c0 hs hc0] at h
    rw [Option.map_some'] at h
    cases h
    rw [replCRChar_of_not_cr c0 hne]
    exact hc0

theorem cpp_normalize_idem_aux (l : List Char) :
    cpp_normalize (cpp_normalize l) = cpp_normalize l := by
  unfold cpp_normalize
  rw [pystrip_eq_self _ (norm_core_head?_not l) (norm_core_getLast?_not l),
    replaceCRLF_of_no_cr _ (no_cr_replaceCR _),
    replaceCR_of_no_cr _ (no_cr_replaceCR _)]

theorem rstripNl_core (l : List Char) :
    rstripNl (replaceCR (replaceCRLF (pystrip l))) =
      replaceCR (replaceCRLF (pystrip l)) := by
  unfold rstripNl
  apply rstrip_eq_self
  intro c hc
  have := norm_core_getLast?_not l c hc
  have hne : c ≠ '\n' := by
    rintro rfl; rw [pyIsSpace_nl] at this; cases this
  simp [hne]

theorem python_normalize_idem_aux (l : List Char) :
    python_normalize (python_normalize l) = python_normalize l := by
  by_cases hl : l = []
  · rw [hl]; rfl
  · have inner : python_normalize l = replaceCR (replaceCRLF (pystrip l)) := by
      unfold python_normalize
      rw [if_neg hl, rstripNl_core]
    rw [inner]
    unfold python_normalize
    by_cases hm : replaceCR (replaceCRLF (pystrip l)) = []
    · rw [if_pos hm, hm]
    · rw [if_neg hm,
        pystrip_eq_self _ (norm_core_head?_not l) (norm_core_getLast?_not l),
        replaceCRLF_of_no_cr _ (no_cr_replaceCR _),
        replaceCR_of_no_cr _ (no_cr_replaceCR _), rstripNl_core]

/-- C8: output normalization is idempotent for both the Python executor's
`_normalize_output` (strip, CRLF/CR to LF, rstrip of trailing newlines)
and the C++ executor's `_normalize_output` (strip, CRLF/CR to LF):
renormalizing a normalized string changes nothing. -/
theorem C8_normalize_idempotent (x : List Char) :
    python_normalize (python_normalize x) = python_normalize x ∧
    cpp_normalize (cpp_normalize x) = cpp_normalize x :=
  ⟨python_normalize_idem_aux x, cpp_normalize_idem_aux x⟩

end Judge
